import Mathlib

/-!
Shallow embedding of `src/conf_mode/protocols_isis.py` (VyOS ISIS protocol
handler): the `verify` validation function and the `apply` FRR-application
stage, together with the parts of the collaborating `vyos` library that the
handler calls (`dict_search`, Python dict/str semantics).  Python values are
modelled by the inductive `Value` (strings, dicts with insertion order,
lists of strings); Python exceptions by `PyErr`; fallible code runs in
`Except PyErr`.
-/

namespace VyosIsis

/-- Python value as it occurs in a VyOS ConfigDict: a scalar string, a
nested dict (association list in insertion order), or a list of strings
(as produced by `node_changed` for `interface_removed`). -/
inductive Value where
  | str  : String → Value
  | dict : List (String × Value) → Value
  | list : List String → Value

/-- A ConfigDict: Python dict from string keys to values, insertion order. -/
abbrev ConfigDict := List (String × Value)

/-- First-match association-list lookup, the semantics of `d[k]` / `k in d`
for a Python dict without duplicate keys. -/
def lookupVal : ConfigDict → String → Option Value
  | [], _ => none
  | (k, v) :: rest, key => if k == key then some v else lookupVal rest key

/-- Python `k in d` on a dict. -/
def hasKey (d : ConfigDict) (k : String) : Bool := (lookupVal d k).isSome

/-- Python truthiness of a value: non-empty string / dict / list. -/
def truthy : Value → Bool
  | .str s => !(s == "")
  | .dict d => !d.isEmpty
  | .list l => !l.isEmpty

/-- Python truthiness of an optional value (`None` is falsy). -/
def otruthy : Option Value → Bool
  | none => false
  | some v => truthy v

/-- The characters of a string as one-character strings (Python iterates a
str character by character). -/
def strChars (s : String) : List String := s.toList.map (fun c => String.mk [c])

/-- Whether `n` is a prefix of `h` (character lists). -/
def charsPre : List Char → List Char → Bool
  | [], _ => true
  | _ :: _, [] => false
  | a :: as, b :: bs => a == b && charsPre as bs

/-- Whether `n` occurs as a contiguous substring of `h` (character lists);
the semantics of Python `n in h` on strings. -/
def charsSub (n : List Char) : List Char → Bool
  | [] => charsPre n []
  | c :: cs => charsPre n (c :: cs) || charsSub n cs

/-- Python `k in v`: key membership on a dict, element membership on a
list, substring test on a str. -/
def pyIn (k : String) : Value → Bool
  | .dict d => d.any (fun p => p.1 == k)
  | .list l => l.any (fun x => x == k)
  | .str s => charsSub k.toList s.toList

/-- Python `iter(v)` as a list of strings: keys of a dict, elements of a
list, characters of a str. -/
def iterKeys : Value → List String
  | .str s => strChars s
  | .dict d => d.map (fun p => p.1)
  | .list l => l

/-- Python `set(v)` as a list of strings (keys / elements / characters). -/
def pySet : Value → List String
  | .dict d => d.map (fun p => p.1)
  | .list l => l
  | .str s => strChars s

/-- Python exception surfaced by the handler: `ConfigError` is the kind the
VyOS framework catches; the others are uncaught interpreter errors. -/
inductive PyErr where
  | configError (msg : String)
  | keyError (key : String)
  | typeError (msg : String)
  | valueError (msg : String)
  | attributeError (attr : String)
  | nameError (name : String)
deriving DecidableEq

/-- Whether a result is a raised `ConfigError`. -/
def isConfigError : Except PyErr Unit → Bool
  | .error (.configError _) => true
  | _ => false

/-- Python subscript `d[k]` on a dict: `KeyError` when the key is absent. -/
def getItem (d : ConfigDict) (k : String) : Except PyErr Value :=
  match lookupVal d k with
  | some v => .ok v
  | none => .error (.keyError k)

/-- Decimal digits accumulated into a Nat; `none` on a non-digit. -/
def parseDigitsAux : List Char → Nat → Option Nat
  | [], acc => some acc
  | c :: cs, acc =>
    if c.isDigit then parseDigitsAux cs (acc * 10 + (c.toNat - 48)) else none

/-- Python `int(s)` on a plain decimal literal with optional sign; `none`
models the `ValueError` on any other string (whitespace and underscore
forms accepted by CPython are not exercised by this handler). -/
def pyInt? (s : String) : Option Int :=
  match s.toList with
  | [] => none
  | '-' :: cs =>
    match cs with
    | [] => none
    | _ => (parseDigitsAux cs 0).map (fun n => -(n : Int))
  | '+' :: cs =>
    match cs with
    | [] => none
    | _ => (parseDigitsAux cs 0).map (fun n => (n : Int))
  | cs => (parseDigitsAux cs 0).map (fun n => (n : Int))

/-- Python `int(x)` where `x` may be `None` (TypeError), a str (parsed, or
ValueError), or a dict/list (TypeError); used by the segment-routing range
check on the result of `dict_search`. -/
def pyIntOf : Option Value → Except PyErr Int
  | none => .error (.typeError "int() argument must be a string or a number, not NoneType")
  | some (.str s) =>
    match pyInt? s with
    | some n => .ok n
    | none => .error (.valueError ("invalid literal for int() with base 10: " ++ s))
  | some (.dict _) => .error (.typeError "int() argument must be a string or a number, not dict")
  | some (.list _) => .error (.typeError "int() argument must be a string or a number, not list")

/-- `vyos.util.dict_search` on a two-component path `k1.k2`:
`my_dict.get(k1, \x7b\x7d).get(k2, None)`; a non-dict intermediate value has
no `.get` and raises AttributeError. -/
def dict_search2 (k1 k2 : String) (d : ConfigDict) : Except PyErr (Option Value) :=
  match lookupVal d k1 with
  | none => .ok none
  | some (.dict d2) => .ok (lookupVal d2 k2)
  | some _ => .error (.attributeError "get")

/-- `vyos.util.dict_search` on a three-component path `k1.k2.k3`. -/
def dict_search3 (k1 k2 k3 : String) (d : ConfigDict) : Except PyErr (Option Value) :=
  match lookupVal d k1 with
  | none => .ok none
  | some (.dict d2) =>
    match lookupVal d2 k2 with
    | none => .ok none
    | some (.dict d3) => .ok (lookupVal d3 k3)
    | some _ => .error (.attributeError "get")
  | some _ => .error (.attributeError "get")

mutual

/-- Python `==` between values (only the str/str case is exercised by the
handler, for the VRF-membership comparison). -/
def valueBeq : Value → Value → Bool
  | .str a, .str b => a == b
  | .list a, .list b => a == b
  | .dict a, .dict b => dictBeq a b
  | _, _ => false

/-- Python `==` between dicts, entry by entry (insertion-ordered model). -/
def dictBeq : List (String × Value) → List (String × Value) → Bool
  | [], [] => true
  | (k1, v1) :: r1, (k2, v2) :: r2 => k1 == k2 && valueBeq v1 v2 && dictBeq r1 r2
  | _, _ => false

end

/-- String rendering of a value inside an f-string (only the str case is
exercised; the handler never formats a dict or list into a message). -/
def pyStr : Value → String
  | .str s => s
  | .dict _ => "<dict>"
  | .list _ => "<list>"

/-- Host interface state, the external `get_interface_config` collaborator:
`none` models a non-existent kernel interface (the Python helper returns
`None` for it). -/
abbrev Env := String → Option ConfigDict

/-- An environment with no kernel interfaces. -/
def envNone : Env := fun _ => none

/-- One iteration of the VRF-membership check of `verify`:
`tmp = get_interface_config(interface)` followed by
`if master not in tmp or tmp[master] != vrf: raise ConfigError(...)`;
`tmp` being `None` makes the `in` test a TypeError. -/
def vrfCheckOne (env : Env) (vrfVal : Value) (interface : String) : Except PyErr Unit :=
  match env interface with
  | none => .error (.typeError "argument of type NoneType is not iterable")
  | some tmp =>
    match lookupVal tmp "master" with
    | none =>
      .error (.configError ("Interface " ++ interface ++ " is not a member of VRF " ++ pyStr vrfVal ++ "!"))
    | some master =>
      if valueBeq master vrfVal then .ok ()
      else .error (.configError ("Interface " ++ interface ++ " is not a member of VRF " ++ pyStr vrfVal ++ "!"))

/-- The `for interface in isis[interface]` loop of `verify`: each iteration
runs the VRF-membership check only when the dict has a `vrf` key. -/
def checkInterfaces (env : Env) (isis : ConfigDict) : List String → Except PyErr Unit
  | [] => .ok ()
  | interface :: rest =>
    match lookupVal isis "vrf" with
    | some vrfVal => do
      vrfCheckOne env vrfVal interface
      checkInterfaces env isis rest
    | none => checkInterfaces env isis rest

/-- The area-password exclusivity check of `verify`: the subscript
`isis[encryption]` raises KeyError when the key is absent, then
`\x7bmd5, plaintext_password\x7d <= set(isis[encryption])`. -/
def areaPasswordCheck (isis : ConfigDict) : Except PyErr Unit := do
  let enc ← getItem isis "encryption"
  if (pySet enc).contains "md5" && (pySet enc).contains "plaintext_password" then
    throw (.configError "Can not use both md5 and plaintext-password for ISIS area-password!")
  else pure ()

/-- Python `s.replace(a, b)` for one-character pattern and replacement, as
used on the timer names and the level string: a character-wise map. -/
def pyReplaceChar (a b : Char) (s : String) : String :=
  String.mk (s.toList.map (fun c => if c == a then b else c))

/-- The five SPF-delay timers of the completeness rule. -/
def requiredTimers : List String :=
  ["holddown", "init_delay", "long_delay", "short_delay", "time_to_learn"]

/-- The SPF-delay completeness check of `verify`: every required timer must
be a member of `isis[spf_delay_ietf]`, else ConfigError naming the missing
ones (the Python code joins a set, whose iteration order is unspecified;
the message here lists the missing timers in declaration order). -/
def spfDelayCheck (v : Value) : Except PyErr Unit :=
  let missing := requiredTimers.filter (fun t => !(pyIn t v))
  if missing.isEmpty then .ok ()
  else .error (.configError ("All types of delay must be specified: "
    ++ String.intercalate ", " (missing.map (fun t => pyReplaceChar '_' '-' t))))

/-- `proc_level = isis.get(level, ).replace(-, _)` of the redistribute
check: absent key gives the empty string; a non-str value has no
`.replace` and raises AttributeError. -/
def procLevelOf (isis : ConfigDict) : Except PyErr String :=
  match lookupVal isis "level" with
  | none => .ok ""
  | some (.str s) => .ok (pyReplaceChar '-' '_' s)
  | some _ => .error (.attributeError "replace")

/-- The per-level loop of the redistribute check.  Both error messages in
the Python source interpolate the name `process`, which is defined nowhere
in the module, so reaching either `raise` evaluates the f-string and
raises `NameError: name process is not defined` instead of the intended
ConfigError. -/
def redistrLevels (procLevel : String) : List String → Except PyErr Unit
  | [] => .ok ()
  | rl :: rest =>
    if !(procLevel == "") && !(procLevel == "level_1_2") && !(procLevel == rl) then
      .error (.nameError "process")
    else redistrLevels procLevel rest

/-- The per-protocol body of the redistribute check: a protocol with
neither `level_1` nor `level_2` reaches the `raise` whose f-string uses the
undefined name `process` (NameError); otherwise the level entries are
iterated (`.items()` requires a dict). -/
def redistrProtoCheck (procLevel : String) (protoConfig : Value) : Except PyErr Unit :=
  if !(pyIn "level_1" protoConfig) && !(pyIn "level_2" protoConfig) then
    .error (.nameError "process")
  else
    match protoConfig with
    | .dict entries => redistrLevels procLevel (entries.map (fun p => p.1))
    | _ => .error (.attributeError "items")

/-- The `for proto, proto_config in isis[redistribute][afi].items()` loop. -/
def redistrProtos (procLevel : String) : List (String × Value) → Except PyErr Unit
  | [] => .ok ()
  | (_, pc) :: rest => do
    redistrProtoCheck procLevel pc
    redistrProtos procLevel rest

/-- The redistribute check of `verify` (the `afi` loop ranges over the
single element `ipv4`). -/
def redistributeCheck (isis : ConfigDict) : Except PyErr Unit := do
  let procLevel ← procLevelOf isis
  let redis ← getItem isis "redistribute"
  if pyIn "ipv4" redis then
    match redis with
    | .dict d =>
      match lookupVal d "ipv4" with
      | some (.dict entries) => redistrProtos procLevel entries
      | some _ => .error (.attributeError "items")
      | none => .error (.keyError "ipv4")
    | _ => .error (.typeError "string indices must be integers")
  else .ok ()

/-- One segment-routing block check of `verify` (the source repeats the
same stanza for `global_block` and `local_block` with different messages):
when `dict_search(segment_routing.<block>, isis)` is truthy, require both
label bounds to be truthy together (else ConfigError), then compare
`int(low) > int(high)` — applied to the raw `dict_search` results, so an
absent bound reaches `int(None)`. -/
def segmentRoutingBlockCheck (isis : ConfigDict) (blockKey bothMsg orderMsg : String) :
    Except PyErr Unit := do
  let blk ← dict_search2 "segment_routing" blockKey isis
  if otruthy blk then
    let high ← dict_search3 "segment_routing" blockKey "high_label_value" isis
    let low ← dict_search3 "segment_routing" blockKey "low_label_value" isis
    if (otruthy low && !(otruthy high)) || (otruthy high && !(otruthy low)) then
      throw (.configError bothMsg)
    else
      let l ← pyIntOf low
      let h ← pyIntOf high
      if h < l then throw (.configError orderMsg) else pure ()
  else pure ()

/-- `verify(isis)` of `src/conf_mode/protocols_isis.py`, parameterised by
the host interface state `env` consulted by the VRF-membership check.  A
normal return is `.ok ()`; a raised exception is `.error e`. -/
def verify (env : Env) (isis : ConfigDict) : Except PyErr Unit :=
  if isis.isEmpty || hasKey isis "deleted" then .ok ()
  else if !(hasKey isis "domain") then
    .error (.configError "Routing domain name/tag must be set!")
  else if !(hasKey isis "net") then
    .error (.configError "Network entity is mandatory!")
  else if !(hasKey isis "interface") then
    .error (.configError "Interface used for routing updates is mandatory!")
  else do
    let ifv ← getItem isis "interface"
    checkInterfaces env isis (iterKeys ifv)
    if hasKey isis "area_password" then areaPasswordCheck isis else pure ()
    if hasKey isis "spf_delay_ietf" then do
      let v ← getItem isis "spf_delay_ietf"
      spfDelayCheck v
    else pure ()
    if hasKey isis "redistribute" then redistributeCheck isis else pure ()
    segmentRoutingBlockCheck isis "global_block"
      "Segment routing global block requires both low and high value!"
      "Segment routing global block low value must be lower than high value"
    segmentRoutingBlockCheck isis "local_block"
      "Segment routing local block requires both high and low value!"
      "Segment routing local block low value must be lower than high value"

/-- The daemon name constant of the handler. -/
def frr_daemon : String := "isisd"

/-- One call of `apply` against the FRR configuration interface, recorded
as a trace element. -/
inductive FrrOp where
  | load (daemon : String)
  | modifySection (anchor replacement : String)
  | addBefore (anchor text : String)
  | commit (daemon : String)
deriving DecidableEq

/-- The helper string `vrf` of `apply`: empty by default, ` vrf <name>`
when the dict has a `vrf` key (string concatenation with a non-str value
would be a TypeError). -/
def vrfSuffix (isis : ConfigDict) : Except PyErr String :=
  match lookupVal isis "vrf" with
  | none => .ok ""
  | some (.str s) => .ok (" vrf " ++ s)
  | some _ => .error (.typeError "can only concatenate str (not dict) to str")

/-- `isis[new_frr_config]` as read by `apply`: KeyError when absent (the
pipeline always sets it in `generate`); the handler then compares it with
the empty string and hands it to `add_before`, both str operations. -/
def newFrrConfigOf (isis : ConfigDict) : Except PyErr String :=
  match lookupVal isis "new_frr_config" with
  | none => .error (.keyError "new_frr_config")
  | some (.str s) => .ok s
  | some _ => .error (.typeError "expected str")

/-- The body of the `for key in [interface, interface_removed]` loop of
`apply` for one key: skipped when absent, else one `modify_section` call
per member. -/
def ifaceOpsFor (isis : ConfigDict) (vrf key : String) : List FrrOp :=
  match lookupVal isis key with
  | some v => (iterKeys v).map (fun i =>
      FrrOp.modifySection ("^interface " ++ i ++ vrf ++ "$") "")
  | none => []

/-- The `for key in [interface, interface_removed]` loop of `apply`: one
`modify_section` call per member of each present key. -/
def interfaceModOps (isis : ConfigDict) (vrf : String) : List FrrOp :=
  (["interface", "interface_removed"].map (fun key => ifaceOpsFor isis vrf key)).flatten

/-- The insertion anchor of `apply`. -/
def tailAnchor : String := "(ip prefix-list .*|route-map .*|line vty)"

/-- `apply(isis)` of `src/conf_mode/protocols_isis.py` as the trace of
calls issued to the FRR configuration interface: load, remove the owned
`router isis` section, remove one section per current or removed
interface, insert the new content before the tail anchor, commit, and —
only when the new content is the empty string — five further commits
(the blank-commit workaround). -/
def applyOps (isis : ConfigDict) : Except PyErr (List FrrOp) := do
  let vrf ← vrfSuffix isis
  let pre := [FrrOp.load frr_daemon,
              FrrOp.modifySection ("^router isis \\S+" ++ vrf ++ "$") ""]
             ++ interfaceModOps isis vrf
  let newCfg ← newFrrConfigOf isis
  pure (pre ++ [FrrOp.addBefore tailAnchor newCfg, FrrOp.commit frr_daemon]
            ++ (if newCfg == "" then List.replicate 5 (FrrOp.commit frr_daemon) else []))

/-- Number of `commit_configuration` calls in a trace. -/
def commitCount (ops : List FrrOp) : Nat :=
  ops.countP (fun op => match op with | FrrOp.commit _ => true | _ => false)

/-- The trace of `apply` as a plain list (empty on a Python error). -/
def applyOpsOf (isis : ConfigDict) : List FrrOp :=
  match applyOps isis with
  | .ok l => l
  | .error _ => []

/-- A ConfigDict as `apply` sees it after a full deletion: the rendered
content is empty. -/
def isisApplyEmpty : ConfigDict := [("new_frr_config", Value.str "")]

/-!
Snapshot model for the idempotence claim.  `vyos.frr.FRRConfig` and the
`frr/isis.frr.tmpl` template are not part of this source tree, so the
daemon snapshot and the two text operations are modelled from the spec.
-/

/-- Modelled from the spec: one section of the daemon's configuration
snapshot, identified by its header line.  `routerIsis tag vrf` stands for
a line `router isis <tag>` plus optional ` vrf <name>` (the tag is a
whitespace-free token, as matched by the anchor); `iface name vrf` for
`interface <name>` plus optional ` vrf <name>`; `other` for any section
of another owner, carrying whether its header matches the insertion
anchor `(ip prefix-list .*|route-map .*|line vty)`. -/
inductive Sec where
  | routerIsis (tag : String) (vrf : Option String)
  | iface (name : String) (vrf : Option String)
  | other (isTailAnchor : Bool) (text : String)
deriving DecidableEq

/-- The anchor regex `^router isis \S+<vrf>$` on a section header: it
matches exactly the `router isis` sections of the same routing context
(any tag, since `\S+` matches any whitespace-free tag). -/
def matchRouterAnchor (vrf : Option String) : Sec → Bool
  | .routerIsis _ v => v == vrf
  | _ => false

/-- The anchor regex `^interface <name><vrf>$` on a section header. -/
def matchIfaceAnchor (i : String) (vrf : Option String) : Sec → Bool
  | .iface n v => n == i && v == vrf
  | _ => false

/-- The insertion anchor on a section header. -/
def matchTailAnchor : Sec → Bool
  | .other t _ => t
  | _ => false

/-- Modelled from the spec: `FRRConfig.modify_section(anchor, )` with an
empty replacement removes every section whose header matches the anchor. -/
def modify_section (p : Sec → Bool) (snap : List Sec) : List Sec :=
  snap.filter (fun s => !(p s))

/-- Modelled from the spec: `FRRConfig.add_before(anchor, text)` inserts
the given sections immediately before the first section matching the
anchor (at the end when no section matches); inserting the empty rendering
leaves the snapshot unchanged. -/
def add_before (p : Sec → Bool) (new : List Sec) : List Sec → List Sec
  | [] => new
  | s :: rest => if p s then new ++ s :: rest else s :: add_before p new rest

/-- The snapshot transformation performed by `apply` (claim model): remove
the owned `router isis` section, remove one section per interface of
`interface` and `interface_removed`, then insert the rendered content
before the tail anchor. -/
def applyFrr (vrf : Option String) (ifaces : List String) (newCfg : List Sec)
    (snap : List Sec) : List Sec :=
  add_before matchTailAnchor newCfg
    (ifaces.foldl (fun acc i => modify_section (matchIfaceAnchor i vrf) acc)
      (modify_section (matchRouterAnchor vrf) snap))

/-- Modelled from the spec: the `frr/isis.frr.tmpl` rendering of a
ConfigDict — one `router isis` base section for the handler's routing
context plus one `interface` section per configured interface; the deleted
state renders to the empty string. -/
def renderIsis (tag : String) (vrf : Option String) (cfgIfaces : List String)
    (deleted : Bool) : List Sec :=
  if deleted then [] else Sec.routerIsis tag vrf :: cfgIfaces.map (fun i => Sec.iface i vrf)

/-- A section is owned by the handler instance when one of its removal
anchors matches it. -/
def ownedSec (vrf : Option String) (ifaces : List String) (s : Sec) : Bool :=
  matchRouterAnchor vrf s || ifaces.any (fun i => matchIfaceAnchor i vrf s)

/-!
Concrete ConfigDict families used to state the claims: each fixes the keys
needed to reach the rule under scrutiny (mandatory fields present, no
`vrf`, no `deleted`) and leaves the rule's own data as parameters.
-/

/-- A minimal valid core passing the mandatory-field and VRF checks, with
one extra entry appended. -/
def isisWith (key : String) (v : Value) : ConfigDict :=
  [("domain", Value.str "foo"),
   ("net", Value.str "49.0001.1921.6800.1002.00"),
   ("interface", Value.dict [("eth0", Value.dict [])]),
   (key, v)]

/-- The block key selected by the segment-routing claims: `global_block`
when the flag is true, `local_block` otherwise. -/
def blockKeyOf (b : Bool) : String := if b then "global_block" else "local_block"

/-- A reachable ConfigDict whose selected segment-routing block holds the
given entries. -/
def srScaffold (b : Bool) (gb : List (String × Value)) : ConfigDict :=
  isisWith "segment_routing" (Value.dict [(blockKeyOf b, Value.dict gb)])

/-- The label-bound entries of a segment-routing block from optional
low/high strings. -/
def srLabelEntries (lo hi : Option String) : List (String × Value) :=
  (match lo with | some s => [("low_label_value", Value.str s)] | none => [])
  ++ (match hi with | some s => [("high_label_value", Value.str s)] | none => [])

/-- A reachable ConfigDict with a segment-routing block carrying the given
optional label bounds. -/
def mkSRIsis (b : Bool) (lo hi : Option String) : ConfigDict :=
  srScaffold b (srLabelEntries lo hi)

/-- The both-bounds-required message of the selected block. -/
def srBothMsg (b : Bool) : String :=
  if b then "Segment routing global block requires both low and high value!"
  else "Segment routing local block requires both high and low value!"

/-- The low-above-high message of the selected block. -/
def srOrderMsg (b : Bool) : String :=
  if b then "Segment routing global block low value must be lower than high value"
  else "Segment routing local block low value must be lower than high value"

/-- A reachable ConfigDict whose `spf_delay_ietf` entry is the given
value. -/
def spfScaffold (v : Value) : ConfigDict := isisWith "spf_delay_ietf" v

/-- The SPF-delay node present but with none of the five timers set. -/
def isisSpfEmpty : ConfigDict := spfScaffold (Value.dict [])

/-- A reachable ConfigDict redistributing a protocol into ipv4 without a
`level_1` or `level_2` sub-key. -/
def isisRedistNoLevel : ConfigDict :=
  isisWith "redistribute" (Value.dict [("ipv4", Value.dict [("connected", Value.dict [])])])

/-- A ConfigDict tagged `deleted` that nevertheless carries an area
password with both encryption flags. -/
def isisAreaDeleted : ConfigDict :=
  [("deleted", Value.str ""),
   ("area_password", Value.dict []),
   ("encryption", Value.dict [("md5", Value.dict []), ("plaintext_password", Value.dict [])])]

/-- A reachable ConfigDict with an area password but no `encryption` key. -/
def isisAreaNoEnc : ConfigDict := isisWith "area_password" (Value.dict [])

/-- A reachable ConfigDict with an area password and both encryption
flags set at once. -/
def isisAreaBoth : ConfigDict :=
  isisWith "area_password" (Value.dict [])
    ++ [("encryption", Value.dict [("md5", Value.dict []), ("plaintext_password", Value.dict [])])]

end VyosIsis
namespace VyosIsis

theorem okBind {α β : Type} (a : α) (f : α → Except PyErr β) : (Except.ok a >>= f) = f a := rfl

theorem errBind {α β : Type} (e : PyErr) (f : α → Except PyErr β) :
    ((Except.error e : Except PyErr α) >>= f) = Except.error e := rfl

theorem pureExcept {α : Type} (a : α) : (pure a : Except PyErr α) = Except.ok a := rfl

theorem throwExcept {α : Type} (e : PyErr) : (throw e : Except PyErr α) = Except.error e := rfl

theorem checkInterfaces_no_vrf (env : Env) (isis : ConfigDict)
    (h : lookupVal isis "vrf" = none) : ∀ l, checkInterfaces env isis l = Except.ok () := by
  intro l
  induction l with
  | nil => rfl
  | cons i rest ih => simp [checkInterfaces, h, ih]

theorem pyInt_some_ne {s : String} {n : Int} (h : pyInt? s = some n) : (s == "") = false := by
  cases hb : s == ""
  · rfl
  · rw [show s = "" from by simpa using hb] at h
    simp [pyInt?] at h

theorem verify_spfScaffold_eq (env : Env) (v : Value) :
    verify env (spfScaffold v) = spfDelayCheck v := by
  cases hsp : spfDelayCheck v with
  | ok u =>
    cases u
    simp [verify, spfScaffold, isisWith, hasKey, lookupVal, getItem, iterKeys,
      checkInterfaces, segmentRoutingBlockCheck, dict_search2, otruthy, hsp, okBind, errBind,
      pureExcept, throwExcept]
  | error e =>
    simp [verify, spfScaffold, isisWith, hasKey, lookupVal, getItem, iterKeys,
      checkInterfaces, segmentRoutingBlockCheck, dict_search2, otruthy, hsp, okBind, errBind,
      pureExcept, throwExcept]

theorem filter_not_isEmpty_eq_all {α : Type} (p : α → Bool) (l : List α) :
    (l.filter (fun x => !(p x))).isEmpty = l.all p := by
  induction l with
  | nil => rfl
  | cons a l ih => cases h : p a <;> simp [List.filter_cons, h, ih]

/-- Claim C7: an empty ConfigDict, or one tagged `deleted`, passes `verify`
unconditionally; no later validation rule is evaluated. -/
theorem verify_deleted_or_empty_ok (env : Env) (isis : ConfigDict)
    (h : (isis.isEmpty || hasKey isis "deleted") = true) : verify env isis = Except.ok () := by
  simp [verify, h]

theorem verify_deleted_or_empty_ok_witness :
    verify envNone [("deleted", Value.str "")] = Except.ok () :=
  verify_deleted_or_empty_ok envNone _ (by decide)

/-- Claim C5: a non-empty, non-deleted ConfigDict missing `domain`, `net`
or `interface` makes `verify` raise a ConfigError naming the missing
field, in the check order domain, then net, then interface. -/
theorem verify_mandatory_fields_order (env : Env) (isis : ConfigDict)
    (hne : isis.isEmpty = false) (hdel : hasKey isis "deleted" = false) :
    (hasKey isis "domain" = false →
      verify env isis = Except.error (PyErr.configError "Routing domain name/tag must be set!"))
    ∧ (hasKey isis "domain" = true → hasKey isis "net" = false →
      verify env isis = Except.error (PyErr.configError "Network entity is mandatory!"))
    ∧ (hasKey isis "domain" = true → hasKey isis "net" = true →
        hasKey isis "interface" = false →
      verify env isis =
        Except.error (PyErr.configError "Interface used for routing updates is mandatory!")) := by
  refine ⟨?_, ?_, ?_⟩ <;> intros <;> simp_all [verify]

theorem verify_mandatory_fields_order_witness :
    verify envNone [("net", Value.str "x")] =
      Except.error (PyErr.configError "Routing domain name/tag must be set!")
    ∧ verify envNone [("domain", Value.str "x")] =
      Except.error (PyErr.configError "Network entity is mandatory!")
    ∧ verify envNone [("domain", Value.str "x"), ("net", Value.str "y")] =
      Except.error (PyErr.configError "Interface used for routing updates is mandatory!") :=
  ⟨(verify_mandatory_fields_order envNone _ (by decide) (by decide)).1 (by decide),
   (verify_mandatory_fields_order envNone _ (by decide) (by decide)).2.1 (by decide) (by decide),
   (verify_mandatory_fields_order envNone _ (by decide) (by decide)).2.2 (by decide) (by decide)
     (by decide)⟩

/-- Claim C3 (code bug): the redistribute rule is meant to raise a
descriptive ConfigError when a `redistribute.ipv4` protocol has neither
`level_1` nor `level_2`, but its f-string interpolates the name `process`,
which is defined nowhere in the module, so reaching the raise evaluates to
`NameError: name process is not defined` instead. -/
theorem verify_redistribute_nameerror :
    verify envNone isisRedistNoLevel = Except.error (PyErr.nameError "process") := rfl

/-- Claim C9: with `area_password` present and `encryption` absent the
exclusivity check's subscript `isis[encryption]` raises KeyError — on any
ConfigDict that reaches the check (non-empty, not deleted, mandatory keys
present, no `vrf`). -/
theorem verify_area_password_missing_encryption (env : Env) (isis : ConfigDict)
    (hne : isis.isEmpty = false) (hdel : hasKey isis "deleted" = false)
    (hdom : hasKey isis "domain" = true) (hnet : hasKey isis "net" = true)
    (hint : hasKey isis "interface" = true) (hvrf : lookupVal isis "vrf" = none)
    (hap : hasKey isis "area_password" = true)
    (henc : lookupVal isis "encryption" = none) :
    verify env isis = Except.error (PyErr.keyError "encryption") := by
  obtain ⟨ifv, hifv⟩ := Option.isSome_iff_exists.mp hint
  simp [verify, hne, hdel, hdom, hnet, hint, getItem, hifv, hap,
    checkInterfaces_no_vrf env isis hvrf, areaPasswordCheck, henc, okBind, errBind,
    pureExcept, throwExcept]

theorem verify_area_password_missing_encryption_witness :
    verify envNone isisAreaNoEnc = Except.error (PyErr.keyError "encryption") :=
  verify_area_password_missing_encryption envNone isisAreaNoEnc rfl rfl rfl rfl rfl rfl rfl rfl

end VyosIsis
namespace VyosIsis

/-- Claim C6 counterexample: a ConfigDict carrying `area_password` and an
`encryption` entry with both flags, but also tagged `deleted`; `verify`
returns normally instead of raising. -/
theorem verify_area_password_deleted_counterexample :
    hasKey isisAreaDeleted "area_password" = true
    ∧ lookupVal isisAreaDeleted "encryption" =
        some (Value.dict [("md5", Value.dict []), ("plaintext_password", Value.dict [])])
    ∧ (pySet (Value.dict [("md5", Value.dict []), ("plaintext_password", Value.dict [])])).contains "md5" = true
    ∧ (pySet (Value.dict [("md5", Value.dict []), ("plaintext_password", Value.dict [])])).contains "plaintext_password" = true
    ∧ verify envNone isisAreaDeleted = Except.ok () :=
  ⟨rfl, rfl, rfl, rfl, rfl⟩

/-- Claim C6 (amended): on every non-deleted ConfigDict that reaches the
area-password rule (mandatory keys present, no `vrf`), `area_password`
together with both `md5` and `plaintext_password` in `encryption` makes
`verify` raise the exclusivity ConfigError. -/
theorem verify_area_password_exclusive (env : Env) (isis : ConfigDict)
    (hne : isis.isEmpty = false) (hdel : hasKey isis "deleted" = false)
    (hdom : hasKey isis "domain" = true) (hnet : hasKey isis "net" = true)
    (hint : hasKey isis "interface" = true) (hvrf : lookupVal isis "vrf" = none)
    (hap : hasKey isis "area_password" = true)
    (enc : Value) (henc : lookupVal isis "encryption" = some enc)
    (hmd5 : (pySet enc).contains "md5" = true)
    (hpp : (pySet enc).contains "plaintext_password" = true) :
    verify env isis = Except.error
      (PyErr.configError "Can not use both md5 and plaintext-password for ISIS area-password!") := by
  obtain ⟨ifv, hifv⟩ := Option.isSome_iff_exists.mp hint
  have h5 : "md5" ∈ pySet enc := by simpa using hmd5
  have h6 : "plaintext_password" ∈ pySet enc := by simpa using hpp
  simp [verify, hne, hdel, hdom, hnet, hint, getItem, hifv, hap,
    checkInterfaces_no_vrf env isis hvrf, areaPasswordCheck, henc, h5, h6, okBind, errBind,
    pureExcept, throwExcept]

theorem verify_area_password_exclusive_witness :
    verify envNone isisAreaBoth = Except.error
      (PyErr.configError "Can not use both md5 and plaintext-password for ISIS area-password!") :=
  verify_area_password_exclusive envNone isisAreaBoth rfl rfl rfl rfl rfl rfl rfl
    (Value.dict [("md5", Value.dict []), ("plaintext_password", Value.dict [])]) rfl rfl rfl

/-- Claim C4 counterexample: the SPF-delay group key present with none of
the five timers set; the claim predicts no raise, but `verify` raises the
completeness ConfigError listing all five timers. -/
theorem verify_spf_delay_counterexample :
    hasKey isisSpfEmpty "spf_delay_ietf" = true
    ∧ requiredTimers.all (fun t => !(pyIn t (Value.dict []))) = true
    ∧ verify envNone isisSpfEmpty = Except.error (PyErr.configError
        "All types of delay must be specified: holddown, init-delay, long-delay, short-delay, time-to-learn") :=
  ⟨rfl, rfl, rfl⟩

/-- Claim C4 (amended): on a ConfigDict that reaches the SPF-delay rule,
`verify` raises a ConfigError exactly when not all five timers are
members of `spf_delay_ietf` — including when none of them is. -/
theorem verify_spf_delay_completeness (env : Env) (v : Value) :
    isConfigError (verify env (spfScaffold v)) = !(requiredTimers.all (fun t => pyIn t v)) := by
  rw [verify_spfScaffold_eq]
  cases hall : requiredTimers.all (fun t => pyIn t v) <;>
    simp [spfDelayCheck, filter_not_isEmpty_eq_all, hall, isConfigError]

/-- Claim C2: the segment-routing bound checks of `verify`, stated on the
reachable family whose selected block carries the given optional label
bounds: exactly one bound present raises the both-required ConfigError;
both present and parsing as integers raise the ordering ConfigError when
low exceeds high and otherwise let `verify` return normally. -/
theorem verify_segment_routing_bounds :
    (∀ (env : Env) (b : Bool) (ls : String), ls ≠ "" →
      verify env (mkSRIsis b (some ls) none) = Except.error (PyErr.configError (srBothMsg b)))
    ∧ (∀ (env : Env) (b : Bool) (hs : String), hs ≠ "" →
      verify env (mkSRIsis b none (some hs)) = Except.error (PyErr.configError (srBothMsg b)))
    ∧ (∀ (env : Env) (b : Bool) (ls hs : String) (l h : Int),
        pyInt? ls = some l → pyInt? hs = some h →
      verify env (mkSRIsis b (some ls) (some hs)) =
        if h < l then Except.error (PyErr.configError (srOrderMsg b)) else Except.ok ()) := by
  refine ⟨?_, ?_, ?_⟩
  · intro env b ls h
    cases b <;>
      simp [verify, mkSRIsis, srScaffold, isisWith, blockKeyOf, srLabelEntries, hasKey, lookupVal,
        getItem, iterKeys, checkInterfaces, segmentRoutingBlockCheck, dict_search2, dict_search3,
        otruthy, truthy, srBothMsg, h, okBind, errBind, pureExcept, throwExcept]
  · intro env b hs h
    cases b <;>
      simp [verify, mkSRIsis, srScaffold, isisWith, blockKeyOf, srLabelEntries, hasKey, lookupVal,
        getItem, iterKeys, checkInterfaces, segmentRoutingBlockCheck, dict_search2, dict_search3,
        otruthy, truthy, srBothMsg, h, okBind, errBind, pureExcept, throwExcept]
  · intro env b ls hs l h h1 h2
    cases b
    all_goals
      simp [verify, mkSRIsis, srScaffold, isisWith, blockKeyOf, srLabelEntries, hasKey, lookupVal,
        getItem, iterKeys, checkInterfaces, segmentRoutingBlockCheck, dict_search2, dict_search3,
        otruthy, truthy, srOrderMsg, pyInt_some_ne h1, pyInt_some_ne h2, pyIntOf, h1, h2,
        okBind, errBind, pureExcept, throwExcept, apply_ite]
    all_goals split <;> simp_all [okBind, errBind]

theorem verify_segment_routing_bounds_witness :
    verify envNone (mkSRIsis true (some "100") none) =
      Except.error (PyErr.configError (srBothMsg true))
    ∧ verify envNone (mkSRIsis false none (some "200")) =
      Except.error (PyErr.configError (srBothMsg false))
    ∧ verify envNone (mkSRIsis true (some "100") (some "200")) = Except.ok ()
    ∧ verify envNone (mkSRIsis false (some "300") (some "200")) =
      Except.error (PyErr.configError (srOrderMsg false)) := by
  refine ⟨verify_segment_routing_bounds.1 envNone true "100" (by decide),
          verify_segment_routing_bounds.2.1 envNone false "200" (by decide), ?_, ?_⟩
  · have h := verify_segment_routing_bounds.2.2 envNone true "100" "200" 100 200 rfl rfl
    simpa using h
  · have h := verify_segment_routing_bounds.2.2 envNone false "300" "200" 300 200 rfl rfl
    simpa using h

/-- Claim C10: a present, non-empty segment-routing block carrying neither
`low_label_value` nor `high_label_value` slips past the both-required
guard (both falsy) and reaches `int(None)`, so `verify` raises TypeError —
neither a normal return nor a ConfigError. -/
theorem verify_segment_routing_missing_labels (env : Env) (b : Bool) (k : String) (v : Value)
    (hk1 : (k == "low_label_value") = false) (hk2 : (k == "high_label_value") = false) :
    verify env (srScaffold b [(k, v)]) =
      Except.error (PyErr.typeError "int() argument must be a string or a number, not NoneType") := by
  cases b <;>
    simp [verify, srScaffold, isisWith, blockKeyOf, hasKey, lookupVal, getItem, iterKeys,
      checkInterfaces, segmentRoutingBlockCheck, dict_search2, dict_search3, otruthy, truthy,
      pyIntOf, hk1, hk2, okBind, errBind, pureExcept, throwExcept]

theorem verify_segment_routing_missing_labels_witness :
    verify envNone (srScaffold true [("x", Value.str "y")]) =
      Except.error (PyErr.typeError "int() argument must be a string or a number, not NoneType") :=
  verify_segment_routing_missing_labels envNone true "x" (Value.str "y") rfl rfl

end VyosIsis
namespace VyosIsis

theorem foldl_modify_section (vrf : Option String) (l : List String) (init : List Sec) :
    l.foldl (fun acc i => modify_section (matchIfaceAnchor i vrf) acc) init
      = init.filter (fun s => !(l.any (fun i => matchIfaceAnchor i vrf s))) := by
  induction l generalizing init with
  | nil => simp
  | cons i rest ih =>
    rw [List.foldl_cons, ih, modify_section, List.filter_filter]
    congr 1
    funext a
    cases hm : matchIfaceAnchor i vrf a <;>
      cases hr : rest.any (fun i => matchIfaceAnchor i vrf a) <;>
        simp [hm, hr]

theorem clean_sections_eq (vrf : Option String) (ifaces : List String) (snap : List Sec) :
    ifaces.foldl (fun acc i => modify_section (matchIfaceAnchor i vrf) acc)
        (modify_section (matchRouterAnchor vrf) snap)
      = snap.filter (fun s => !(ownedSec vrf ifaces s)) := by
  rw [foldl_modify_section, modify_section, List.filter_filter]
  congr 1
  funext a
  simp only [ownedSec, Bool.not_or]
  exact Bool.and_comm _ _

theorem add_before_filter (p q : Sec → Bool) (new : List Sec)
    (hnew : ∀ x ∈ new, q x = false) :
    ∀ l : List Sec, (add_before p new l).filter q = l.filter q := by
  intro l
  have hnil : new.filter q = [] := by
    rw [List.filter_eq_nil_iff]
    intro a ha
    simp [hnew a ha]
  induction l with
  | nil => simpa [add_before] using hnil
  | cons s rest ih =>
    cases hps : p s with
    | true => simp [add_before, hps, List.filter_append, hnil]
    | false =>
      simp only [add_before, hps, Bool.false_eq_true, if_false]
      rw [List.filter_cons, List.filter_cons, ih]

theorem render_owned (tag : String) (vrf : Option String) (cfgIfaces remIfaces : List String)
    (deleted : Bool) :
    ∀ x ∈ renderIsis tag vrf cfgIfaces deleted,
      (!(ownedSec vrf (cfgIfaces ++ remIfaces) x)) = false := by
  intro x hx
  cases deleted with
  | true => simp [renderIsis] at hx
  | false =>
    simp [renderIsis] at hx
    rcases hx with h | ⟨i, hi, h⟩
    · subst h
      simp [ownedSec, matchRouterAnchor]
    · subst h
      have hany : (cfgIfaces ++ remIfaces).any
          (fun j => matchIfaceAnchor j vrf (Sec.iface i vrf)) = true := by
        refine List.any_eq_true.mpr ?_
        exact ⟨i, by simp [hi], by simp [matchIfaceAnchor]⟩
      simp [ownedSec, hany]

/-- Claim C1: applying the same ConfigDict twice yields the same daemon
configuration: the snapshot transformation of `apply` — remove every
section matching the handler's `router isis`/`interface` anchors for the
union of `interface` and `interface_removed`, then insert the rendered
content before the tail anchor — is idempotent on every snapshot, because
every rendered section is again matched by the removal anchors. -/
theorem frr_apply_idempotent (tag : String) (vrf : Option String)
    (cfgIfaces remIfaces : List String) (deleted : Bool) (snap : List Sec) :
    applyFrr vrf (cfgIfaces ++ remIfaces) (renderIsis tag vrf cfgIfaces deleted)
        (applyFrr vrf (cfgIfaces ++ remIfaces) (renderIsis tag vrf cfgIfaces deleted) snap)
      = applyFrr vrf (cfgIfaces ++ remIfaces) (renderIsis tag vrf cfgIfaces deleted) snap := by
  unfold applyFrr
  rw [clean_sections_eq, clean_sections_eq,
    add_before_filter _ _ _ (render_owned tag vrf cfgIfaces remIfaces deleted),
    List.filter_filter]
  congr 2
  funext a
  cases ownedSec vrf (cfgIfaces ++ remIfaces) a <;> simp

theorem commitCount_append (l1 l2 : List FrrOp) :
    commitCount (l1 ++ l2) = commitCount l1 + commitCount l2 := by
  simp [commitCount, List.countP_append]

theorem commitCount_modify_map (g : String → String) (l : List String) :
    commitCount (l.map (fun i => FrrOp.modifySection (g i) "")) = 0 := by
  induction l with
  | nil => rfl
  | cons i rest ih =>
    rw [List.map_cons]
    simp only [commitCount, List.countP_cons] at ih ⊢
    simp [ih]

theorem commitCount_ifaceOpsFor (isis : ConfigDict) (vrf key : String) :
    commitCount (ifaceOpsFor isis vrf key) = 0 := by
  unfold ifaceOpsFor
  cases lookupVal isis key with
  | none => rfl
  | some v => exact commitCount_modify_map _ (iterKeys v)

theorem commitCount_interfaceModOps (isis : ConfigDict) (vrf : String) :
    commitCount (interfaceModOps isis vrf) = 0 := by
  show commitCount (ifaceOpsFor isis vrf "interface"
    ++ (ifaceOpsFor isis vrf "interface_removed" ++ [])) = 0
  rw [commitCount_append, commitCount_append, commitCount_ifaceOpsFor,
    commitCount_ifaceOpsFor]
  rfl

/-- Claim C8: `apply` issues the daemon commit exactly once when the
rendered `new_frr_config` is non-empty, and six times in total (the
initial commit plus the 5x blank-commit workaround) exactly when it is
the empty string. -/
theorem apply_commit_retry (isis : ConfigDict) (ops : List FrrOp)
    (hops : applyOps isis = Except.ok ops) :
    (lookupVal isis "new_frr_config" = some (Value.str "") → commitCount ops = 6)
    ∧ (lookupVal isis "new_frr_config" ≠ some (Value.str "") → commitCount ops = 1) := by
  cases hv : vrfSuffix isis with
  | error e => simp [applyOps, hv, errBind] at hops
  | ok vrf =>
    cases hn : lookupVal isis "new_frr_config" with
    | none => simp [applyOps, hv, newFrrConfigOf, hn, okBind, errBind] at hops
    | some val =>
      cases val with
      | dict d => simp [applyOps, hv, newFrrConfigOf, hn, okBind, errBind] at hops
      | list l => simp [applyOps, hv, newFrrConfigOf, hn, okBind, errBind] at hops
      | str s =>
        simp [applyOps, hv, newFrrConfigOf, hn, okBind, errBind, pureExcept] at hops
        subst hops
        by_cases hs : s = ""
        · subst hs
          refine ⟨fun _ => ?_, fun hcontra => absurd rfl hcontra⟩
          have hi := commitCount_interfaceModOps isis vrf
          simp only [commitCount] at hi
          simp [commitCount, List.countP_cons, List.countP_append, hi]
        · refine ⟨fun heq => ?_, fun _ => ?_⟩
          · simp at heq
            exact absurd heq hs
          · have hi := commitCount_interfaceModOps isis vrf
            simp only [commitCount] at hi
            simp [commitCount, List.countP_cons, List.countP_append, hs, hi]

theorem apply_commit_retry_witness : commitCount (applyOpsOf isisApplyEmpty) = 6 :=
  (apply_commit_retry isisApplyEmpty (applyOpsOf isisApplyEmpty) rfl).1 rfl

end VyosIsis
